import Mathlib

/-!
Shallow embedding of the DANA mutasi bot (src/main.py): the `StorageManager`
persistence layer (local JSON file plus optional Google-Sheets mirror) and the
Telegram command dispatch logic for add (`/tambah`) and stop (`/stop`).

Modelling conventions:
- The local JSON file `data/accounts.json` is a `List Account` inside `Storage`.
- The remote spreadsheet is external state; each remote call made by a storage
  operation is represented by a `RemoteCall` oracle value describing its
  outcome (`ok` with a result, or `raise` when the client throws).  Every
  remote call site in the Python code is wrapped in try/except that swallows
  the exception, which the embedding mirrors by producing the same local
  result in both branches.
- Python dicts with lowercase keys (local records) and capitalized keys
  (remote `get_all_records` rows) are modelled by the sum type `Rec`, whose
  getters return `none` exactly when `dict.get` would return `None`.
- `datetime.now()` is an opaque timestamp string passed in by the caller.
- Python `str.isdigit` is modelled for ASCII strings: nonempty and all digits.
-/

namespace DanaBot

/-- A local account record, as built by `StorageManager.add_account`
(`account_data` in src/main.py, lines 58-65). -/
structure Account where
  phone : String
  name : String
  pin : String
  status : String
  added : String
  transactions : Nat
deriving DecidableEq, Repr

/-- A row of the remote worksheet as returned by `ws.get_all_records()`:
keys come from the header row `ID, Phone, Name, PIN, Status, Added,
Transactions` (src/main.py line 74). -/
structure RawRow where
  ID : Nat
  Phone : String
  Name : String
  PIN : String
  Status : String
  Added : String
  Transactions : Nat
deriving DecidableEq, Repr

/-- The dict-shaped values flowing out of `get_accounts`: either a local
record (lowercase keys) or a remote row (capitalized keys). -/
inductive Rec where
  | loc (a : Account)
  | rem (r : RawRow)
deriving DecidableEq, Repr

/-- Python dict lookup of the lowercase key `status` via `.get`. -/
def Rec.get_status : Rec → Option String
  | .loc a => some a.status
  | .rem _ => none

/-- Python dict lookup of the capitalized key `Status` via `.get`. -/
def Rec.get_Status : Rec → Option String
  | .loc _ => none
  | .rem r => some r.Status

/-- Python dict lookup of the lowercase key `phone` via `.get`. -/
def Rec.get_phone : Rec → Option String
  | .loc a => some a.phone
  | .rem _ => none

/-- Python dict lookup of the capitalized key `Phone` via `.get`. -/
def Rec.get_Phone : Rec → Option String
  | .loc _ => none
  | .rem r => some r.Phone

/-- Outcome of one call to the external spreadsheet client: it either
returns a value or throws an exception. -/
inductive RemoteCall (α : Type) where
  | ok (a : α)
  | raise
deriving DecidableEq, Repr

/-- State of `StorageManager`: the `use_google_sheets` flag set in `__init__`
and the contents of the local file `data/accounts.json`. -/
structure Storage where
  use_google_sheets : Bool
  accounts : List Account
deriving DecidableEq, Repr

/-- Fresh local store: `__init__` writes `{"accounts": []}` when the file is
absent; the flag is false when no sheet is configured. -/
def emptyStorage : Storage :=
  { use_google_sheets := false, accounts := [] }

/-- The `account_data` dict built at the top of `add_account`. -/
def mkAccount (phone pin name now : String) : Account :=
  { phone := phone, name := name, pin := pin, status := "active",
    added := now, transactions := 0 }

/-- Embedding of `StorageManager.add_account` (src/main.py lines 57-96).  When
`use_google_sheets` is set it attempts a remote append whose failure is
caught and logged (`except Exception as e: print(..., "saving locally")`);
in either case it then appends the record to the local file and returns
True. -/
def Storage.add_account (st : Storage) (remoteApp : RemoteCall Unit)
    (phone pin name now : String) : Bool × Storage :=
  let account_data := mkAccount phone pin name now
  let st1 :=
    if st.use_google_sheets then
      match remoteApp with
      | .ok _ => st
      | .raise => st
    else st
  (true, { st1 with accounts := st1.accounts ++ [account_data] })

/-- Embedding of `StorageManager.get_accounts` (src/main.py lines 98-110).  With the
remote enabled and a successful read it returns the remote rows whose
`Status` is `"active"`; on a remote exception (`except: pass`) or with the
remote disabled it returns the full local collection. -/
def Storage.get_accounts (st : Storage)
    (remoteRead : RemoteCall (List RawRow)) : List Rec :=
  if st.use_google_sheets then
    match remoteRead with
    | .ok records => (records.filter (fun r => r.Status == "active")).map Rec.rem
    | .raise => st.accounts.map Rec.loc
  else
    st.accounts.map Rec.loc

/-- Embedding of `StorageManager.remove_account` (src/main.py lines 112-134).  The remote
mark-inactive scan is best-effort (`except: pass`, external sheet state not
modelled further); the local collection is then rewritten keeping exactly
the records whose `phone` differs, and True is returned unconditionally. -/
def Storage.remove_account (st : Storage) (remoteMark : RemoteCall Unit)
    (phone : String) : Bool × Storage :=
  let st1 :=
    if st.use_google_sheets then
      match remoteMark with
      | .ok _ => st
      | .raise => st
    else st
  (true, { st1 with accounts := st1.accounts.filter (fun acc => acc.phone != phone) })

/-- Python `s.startswith(pre)`, expressed over the character sequence. -/
def py_startswith (s pre : String) : Bool :=
  pre.data.isPrefixOf s.data

/-- Python `str.isdigit` for ASCII strings: nonempty and every char a digit. -/
def pyIsdigit (s : String) : Bool :=
  !s.data.isEmpty && s.data.all Char.isDigit

/-- Replies produced by `DanaBot.add_command`; `message` below carries the
exact reply text from src/main.py. -/
inductive Reply where
  | wrongFormat
  | badPhone
  | badPin
  | capacityFull
  | added (phone pin : String)
deriving DecidableEq, Repr

/-- The reply texts sent by `add_command` (src/main.py lines 230-273). -/
def Reply.message : Reply → String
  | .wrongFormat =>
      "❌ *Format salah!*\n\nGunakan: `/tambah 081234567890 123456`\nContoh: `/tambah 081212345678 77888`"
  | .badPhone => "❌ Nomor HP harus dimulai 08 dan minimal 10 digit"
  | .badPin => "❌ PIN harus 4-6 digit angka"
  | .capacityFull =>
      "❌ *Sudah mencapai 8 akun aktif!*\n\nHapus salah satu akun terlebih dahulu dengan:\n`/stop 081234567890`"
  | .added phone pin =>
      "✅ *AKUN BERHASIL DITAMBAHKAN!*\n\n📱 Nomor: `" ++ phone ++ "`\n🔐 PIN: `" ++ pin ++
      "`\n📊 Status: Aktif\n\nSekarang gunakan `/list` untuk melihat tabel."

/-- Embedding of `DanaBot.add_command` (src/main.py lines 228-273): argument-count check
(`len(context.args) < 2`), phone validation, pin validation, active-record
cap check over `get_accounts` (filtering on either the `status` or `Status`
key), then `add_account(phone, pin)` with the default name "User". -/
def add_command (args : List String) (st : Storage)
    (remoteRead : RemoteCall (List RawRow)) (remoteApp : RemoteCall Unit)
    (now : String) : Reply × Storage :=
  if args.length < 2 then (.wrongFormat, st)
  else
    let phone := args.getD 0 ""
    let pin := args.getD 1 ""
    if py_startswith phone "08" = false ∨ phone.length < 10 then (.badPhone, st)
    else if pin.length < 4 ∨ 6 < pin.length ∨ pyIsdigit pin = false then (.badPin, st)
    else
      let accounts := st.get_accounts remoteRead
      let active_accounts := accounts.filter
        (fun acc => acc.get_status == some "active" || acc.get_Status == some "active")
      if 8 ≤ active_accounts.length then (.capacityFull, st)
      else
        let r := st.add_account remoteApp phone pin "User" now
        (.added phone pin, r.2)

/-- Replies produced by `DanaBot.stop_command` (src/main.py lines 275-297). -/
inductive StopReply where
  | wrongFormat
  | stopped (phone : String)
  | notFound (phone : String)
deriving DecidableEq, Repr

/-- Embedding of `DanaBot.stop_command`: with no argument replies with a format error,
otherwise calls `remove_account` and reports success iff it returned True. -/
def stop_command (args : List String) (st : Storage)
    (remoteMark : RemoteCall Unit) : StopReply × Storage :=
  if args.length = 0 then (.wrongFormat, st)
  else
    let phone := args.getD 0 ""
    let r := st.remove_account remoteMark phone
    if r.1 then (.stopped phone, r.2) else (.notFound phone, r.2)

/-- The phone validation predicate of `add_command` in positive form:
starts with "08" and has at least 10 characters. -/
def phone_ok (phone : String) : Prop :=
  py_startswith phone "08" = true ∧ 10 ≤ phone.length

instance (phone : String) : Decidable (phone_ok phone) := by
  unfold phone_ok
  infer_instance

/-- The pin validation predicate of `add_command` in positive form:
length 4-6 and `isdigit`. -/
def pin_ok (pin : String) : Prop :=
  4 ≤ pin.length ∧ pin.length ≤ 6 ∧ pyIsdigit pin = true

instance (pin : String) : Decidable (pin_ok pin) := by
  unfold pin_ok
  infer_instance

/-- Number of records with status "active" in a local collection. -/
def countActive (l : List Account) : Nat :=
  (l.filter (fun a => a.status == "active")).length

/-- One add request issued through the chat interface: its space-separated
arguments, the outcomes of the remote read and append it may trigger, and
the wall-clock timestamp at which it runs. -/
structure AddReq where
  args : List String
  remoteRead : RemoteCall (List RawRow)
  remoteApp : RemoteCall Unit
  now : String

/-- Run a sequence of add commands against a storage state. -/
def runAdds (cmds : List AddReq) (st : Storage) : Storage :=
  cmds.foldl (fun s c => (add_command c.args s c.remoteRead c.remoteApp c.now).2) st

/-! ## Helper lemmas -/

/-- The remote section of `remove_account` never changes the local state. -/
lemma remove_account_accounts (st : Storage) (r : RemoteCall Unit) (phone : String) :
    ((st.remove_account r phone).2).accounts
      = st.accounts.filter (fun a => a.phone != phone) := by
  obtain ⟨flag, accounts⟩ := st
  cases flag <;> cases r <;> rfl

/-- Unconditionally, `remove_account` returns True. -/
lemma remove_account_fst (st : Storage) (r : RemoteCall Unit) (phone : String) :
    (st.remove_account r phone).1 = true := rfl

/-- The remote section of `add_account` never changes the local state. -/
lemma add_account_eq (st : Storage) (r : RemoteCall Unit) (phone pin name now : String) :
    st.add_account r phone pin name now
      = (true, { st with accounts := st.accounts ++ [mkAccount phone pin name now] }) := by
  obtain ⟨flag, accounts⟩ := st
  cases flag <;> cases r <;> rfl

/-- Likewise for `remove_account`, as a single equation. -/
lemma remove_account_eq (st : Storage) (r : RemoteCall Unit) (phone : String) :
    st.remove_account r phone
      = (true, { st with accounts := st.accounts.filter (fun a => a.phone != phone) }) := by
  obtain ⟨flag, accounts⟩ := st
  cases flag <;> cases r <;> rfl

/-! ## Claim theorems -/

/-- C10: `remove_account p` removes every record whose phone equals `p` and
keeps every other record unchanged (all fields) in its original relative
order: the resulting local collection is exactly the input filtered to the
records whose phone differs from `p`, hence a sublist of the input in which
no record carries phone `p`. -/
theorem spec_c10_remove_frame (st : Storage) (r : RemoteCall Unit) (phone : String) :
    ((st.remove_account r phone).2).accounts
        = st.accounts.filter (fun a => a.phone != phone) ∧
    List.Sublist ((st.remove_account r phone).2).accounts st.accounts ∧
    ∀ a ∈ ((st.remove_account r phone).2).accounts, a.phone ≠ phone := by
  refine ⟨remove_account_accounts st r phone, ?_, ?_⟩
  · rw [remove_account_accounts]
    exact List.filter_sublist st.accounts
  · intro a ha
    rw [remove_account_accounts] at ha
    simp only [List.mem_filter, bne_iff_ne, ne_eq] at ha
    exact ha.2

/-- C6: removing the same phone twice succeeds both times (True is returned
unconditionally) and afterwards no record with that phone remains in the
local store — in particular the second call, against a phone no longer
present, still reports success. -/
theorem spec_c6_idempotent_removal (st : Storage) (phone : String)
    (r1 r2 : RemoteCall Unit) :
    (st.remove_account r1 phone).1 = true ∧
    (((st.remove_account r1 phone).2).remove_account r2 phone).1 = true ∧
    ∀ a ∈ ((((st.remove_account r1 phone).2).remove_account r2 phone).2).accounts,
      a.phone ≠ phone := by
  refine ⟨remove_account_fst .., remove_account_fst .., ?_⟩
  intro a ha
  rw [remove_account_accounts] at ha
  simp only [List.mem_filter, bne_iff_ne, ne_eq] at ha
  exact ha.2

/-- C2: with the remote configured (`use_google_sheets = true`) but every
remote call raising, `add_account` still returns True and appends the new
record to the local store, and `remove_account` still returns True and
excludes the matching phone from the local store. -/
theorem spec_c2_remote_fault_isolation (st : Storage) (phone pin name now p2 : String)
    (_h : st.use_google_sheets = true) :
    st.add_account RemoteCall.raise phone pin name now
      = (true, { st with accounts := st.accounts ++ [mkAccount phone pin name now] }) ∧
    st.remove_account RemoteCall.raise p2
      = (true, { st with accounts := st.accounts.filter (fun a => a.phone != p2) }) :=
  ⟨add_account_eq .., remove_account_eq ..⟩

/-- A one-account store with the remote configured, for the C2 witness. -/
def remoteOnStore : Storage :=
  { use_google_sheets := true,
    accounts := [mkAccount "0811111111" "1234" "User" "t0"] }

/-- C2 witness: concrete one-account store with the remote configured and
raising on every call. -/
theorem spec_c2_witness :
    remoteOnStore.add_account RemoteCall.raise "0822222222" "5678" "User" "t1"
      = (true, { remoteOnStore with
                 accounts := remoteOnStore.accounts
                   ++ [mkAccount "0822222222" "5678" "User" "t1"] }) ∧
    remoteOnStore.remove_account RemoteCall.raise "0811111111"
      = (true, { remoteOnStore with
                 accounts := remoteOnStore.accounts.filter
                   (fun a => a.phone != "0811111111") }) :=
  spec_c2_remote_fault_isolation remoteOnStore "0822222222" "5678" "User" "t1"
    "0811111111" rfl

/-- C3: round trip with the remote disabled, starting from the empty store:
the add succeeds, `get_accounts` then returns exactly one record, with phone
"081234567890", status "active" and transactions 0; after removing that
phone, `get_accounts` returns the empty collection, so no record with that
phone. -/
theorem spec_c3_round_trip (now : String) :
    (emptyStorage.add_account RemoteCall.raise "081234567890" "123456" "User" now).1 = true ∧
    ((emptyStorage.add_account RemoteCall.raise "081234567890" "123456" "User" now).2).get_accounts
        RemoteCall.raise
      = [Rec.loc (mkAccount "081234567890" "123456" "User" now)] ∧
    (mkAccount "081234567890" "123456" "User" now).phone = "081234567890" ∧
    (mkAccount "081234567890" "123456" "User" now).status = "active" ∧
    (mkAccount "081234567890" "123456" "User" now).transactions = 0 ∧
    (((emptyStorage.add_account RemoteCall.raise "081234567890" "123456" "User" now).2).remove_account
        RemoteCall.raise "081234567890").1 = true ∧
    ((((emptyStorage.add_account RemoteCall.raise "081234567890" "123456" "User" now).2).remove_account
        RemoteCall.raise "081234567890").2).get_accounts RemoteCall.raise = [] :=
  ⟨rfl, rfl, rfl, rfl, rfl, rfl, rfl⟩

/-- C9: read precedence and asymmetry of `get_accounts`: with the remote
enabled and the read succeeding it returns exactly the remote rows whose
`Status` is "active" (so every returned record is active); on a remote
exception, or with the remote disabled, it returns the full local
collection unfiltered — every local record, active or not, is included. -/
theorem spec_c9_read_precedence (st st2 : Storage) (rows : List RawRow)
    (rr : RemoteCall (List RawRow))
    (h : st.use_google_sheets = true) (h2 : st2.use_google_sheets = false) :
    st.get_accounts (RemoteCall.ok rows)
      = (rows.filter (fun r => r.Status == "active")).map Rec.rem ∧
    (∀ rec ∈ st.get_accounts (RemoteCall.ok rows), rec.get_Status = some "active") ∧
    st.get_accounts RemoteCall.raise = st.accounts.map Rec.loc ∧
    st2.get_accounts rr = st2.accounts.map Rec.loc ∧
    ∀ a ∈ st2.accounts, Rec.loc a ∈ st2.get_accounts rr := by
  refine ⟨by simp [Storage.get_accounts, h], ?_, by simp [Storage.get_accounts, h],
    by simp [Storage.get_accounts, h2], ?_⟩
  · intro rec hrec
    simp only [Storage.get_accounts, h, if_true, List.mem_map, List.mem_filter,
      beq_iff_eq] at hrec
    obtain ⟨row, ⟨_, hs⟩, hrow⟩ := hrec
    rw [← hrow]
    simp [Rec.get_Status, hs]
  · intro a ha
    simp only [Storage.get_accounts, h2, Bool.false_eq_true, if_false]
    exact List.mem_map_of_mem Rec.loc ha

/-- A store with the remote enabled, for the C9 witness. -/
def readOnStore : Storage :=
  { use_google_sheets := true,
    accounts := [mkAccount "0833333333" "1111" "User" "t0"] }

/-- A remote-disabled store holding an inactive record, for the C9 witness. -/
def readOffStore : Storage :=
  { use_google_sheets := false,
    accounts := [{ mkAccount "0844444444" "2222" "User" "t1" with
                   status := "inactive" }] }

/-- Two remote rows, one active and one inactive, for the C9 witness. -/
def sampleRows : List RawRow :=
  [{ ID := 1, Phone := "0855555555", Name := "A", PIN := "3333",
     Status := "active", Added := "t2", Transactions := 0 },
   { ID := 2, Phone := "0866666666", Name := "B", PIN := "4444",
     Status := "inactive", Added := "t3", Transactions := 0 }]

/-- C9 witness: one remote row active, one inactive; local store holding an
inactive record. -/
theorem spec_c9_witness :
    readOnStore.get_accounts (RemoteCall.ok sampleRows)
      = (sampleRows.filter (fun r => r.Status == "active")).map Rec.rem ∧
    (∀ rec ∈ readOnStore.get_accounts (RemoteCall.ok sampleRows),
      rec.get_Status = some "active") ∧
    readOnStore.get_accounts RemoteCall.raise = readOnStore.accounts.map Rec.loc ∧
    readOffStore.get_accounts RemoteCall.raise = readOffStore.accounts.map Rec.loc ∧
    ∀ a ∈ readOffStore.accounts, Rec.loc a ∈ readOffStore.get_accounts RemoteCall.raise :=
  spec_c9_read_precedence readOnStore readOffStore sampleRows RemoteCall.raise rfl rfl

/-- Evaluation of `add_command` on a two-argument list, with the argument-count branch
discharged. -/
lemma add_command_two (phone pin now : String) (st : Storage)
    (rr : RemoteCall (List RawRow)) (ra : RemoteCall Unit) :
    add_command [phone, pin] st rr ra now =
      if py_startswith phone "08" = false ∨ phone.length < 10 then (.badPhone, st)
      else if pin.length < 4 ∨ 6 < pin.length ∨ pyIsdigit pin = false then (.badPin, st)
      else if 8 ≤ ((st.get_accounts rr).filter
          (fun acc => acc.get_status == some "active" || acc.get_Status == some "active")).length
        then (.capacityFull, st)
        else (.added phone pin, (st.add_account ra phone pin "User" now).2) := rfl

/-- The rejection test of the phone branch is the negation of `phone_ok`. -/
lemma phone_bad_iff (phone : String) :
    (py_startswith phone "08" = false ∨ phone.length < 10) ↔ ¬ phone_ok phone := by
  unfold phone_ok
  constructor
  · rintro (hb | hl) ⟨h1, h2⟩
    · rw [h1] at hb
      simp at hb
    · omega
  · intro h
    rcases Bool.eq_false_or_eq_true (py_startswith phone "08") with hb | hb
    · right
      by_contra hlen
      exact h ⟨hb, Nat.le_of_not_lt hlen⟩
    · exact Or.inl hb

/-- The rejection test of the pin branch is the negation of `pin_ok`. -/
lemma pin_bad_iff (pin : String) :
    (pin.length < 4 ∨ 6 < pin.length ∨ pyIsdigit pin = false) ↔ ¬ pin_ok pin := by
  unfold pin_ok
  constructor
  · rintro (hl | hg | hb) ⟨h1, h2, h3⟩
    · omega
    · omega
    · rw [h3] at hb
      simp at hb
  · intro h
    rcases Nat.lt_or_ge pin.length 4 with hl | hl
    · exact Or.inl hl
    rcases Nat.lt_or_ge 6 pin.length with hg | hg
    · exact Or.inr (Or.inl hg)
    rcases Bool.eq_false_or_eq_true (pyIsdigit pin) with hb | hb
    · exact absurd ⟨hl, hg, hb⟩ h
    · exact Or.inr (Or.inr hb)

/-- C4: a request `[phone, pin]` whose phone does not start with "08" or is
shorter than 10 characters is rejected by `add_command` with the
phone-format error message, and storage is unchanged. -/
theorem spec_c4_phone_validation (phone pin now : String) (st : Storage)
    (rr : RemoteCall (List RawRow)) (ra : RemoteCall Unit)
    (h : ¬ phone_ok phone) :
    add_command [phone, pin] st rr ra now = (Reply.badPhone, st) ∧
    Reply.badPhone.message = "❌ Nomor HP harus dimulai 08 dan minimal 10 digit" := by
  rw [add_command_two, if_pos ((phone_bad_iff phone).mpr h)]
  exact ⟨rfl, rfl⟩

/-- C4 witness: phone "12345" (wrong head and too short) with a valid pin. -/
theorem spec_c4_witness :
    add_command ["12345", "123456"] emptyStorage RemoteCall.raise RemoteCall.raise "t"
      = (Reply.badPhone, emptyStorage) ∧
    Reply.badPhone.message = "❌ Nomor HP harus dimulai 08 dan minimal 10 digit" :=
  spec_c4_phone_validation "12345" "123456" "t" emptyStorage RemoteCall.raise
    RemoteCall.raise (by decide)

/-- C5 counterexample: the request `["1", "12"]` has an invalid pin ("12" is
shorter than 4), yet `add_command` replies with the phone-format error, not
the pin-format error, because phone validation runs first. -/
theorem spec_c5_counterexample :
    ¬ pin_ok "12" ∧
    (add_command ["1", "12"] emptyStorage RemoteCall.raise RemoteCall.raise "t").1
      = Reply.badPhone ∧
    Reply.badPhone ≠ Reply.badPin := by decide

/-- C5 amended: a request `[phone, pin]` whose pin has length outside 4-6 or
a non-digit character is always rejected with storage unchanged; the reply
is the pin-format error when the phone passes phone validation, and the
phone-format error otherwise (phone validation runs first). -/
theorem spec_c5_pin_validation (phone pin now : String) (st : Storage)
    (rr : RemoteCall (List RawRow)) (ra : RemoteCall Unit)
    (h : ¬ pin_ok pin) :
    add_command [phone, pin] st rr ra now
      = ((if phone_ok phone then Reply.badPin else Reply.badPhone), st) := by
  rw [add_command_two]
  by_cases hp : phone_ok phone
  · rw [if_neg (fun hc => (phone_bad_iff phone).mp hc hp),
      if_pos ((pin_bad_iff pin).mpr h), if_pos hp]
  · rw [if_pos ((phone_bad_iff phone).mpr hp), if_neg hp]

/-- C5 amended witness: valid phone with the too-short pin "12". -/
theorem spec_c5_witness :
    add_command ["081234567890", "12"] emptyStorage RemoteCall.raise RemoteCall.raise "t"
      = ((if phone_ok "081234567890" then Reply.badPin else Reply.badPhone), emptyStorage) :=
  spec_c5_pin_validation "081234567890" "12" "t" emptyStorage RemoteCall.raise
    RemoteCall.raise (by decide)

/-- C7 counterexample: a three-argument request (length ≠ 2) with a valid
phone and pin in the first two positions is accepted by `add_command` and
mutates storage, instead of being rejected with the wrong-arg-count error:
the code only checks `len(context.args) < 2`. -/
theorem spec_c7_counterexample :
    (["081234567890", "123456", "x"] : List String).length ≠ 2 ∧
    add_command ["081234567890", "123456", "x"] emptyStorage RemoteCall.raise
        RemoteCall.raise "t"
      = (Reply.added "081234567890" "123456",
         { use_google_sheets := false,
           accounts := [mkAccount "081234567890" "123456" "User" "t"] }) := by
  decide

/-- C7 amended: the add command requires at least two arguments: any
argument list with fewer than two is rejected with the wrong-arg-count
format error and no mutation, and any arguments beyond the first two are
ignored (the command behaves exactly as with the first two alone). -/
theorem spec_c7_arg_count (args : List String) (a b : String) (rest : List String)
    (st : Storage) (rr : RemoteCall (List RawRow)) (ra : RemoteCall Unit) (now : String)
    (h : args.length < 2) :
    add_command args st rr ra now = (Reply.wrongFormat, st) ∧
    add_command (a :: b :: rest) st rr ra now = add_command [a, b] st rr ra now := by
  constructor
  · unfold add_command
    rw [if_pos h]
  · rfl

/-- C7 amended witness: the empty argument list is rejected; a third
argument "x" after a valid phone and pin changes nothing. -/
theorem spec_c7_witness :
    add_command [] emptyStorage RemoteCall.raise RemoteCall.raise "t"
      = (Reply.wrongFormat, emptyStorage) ∧
    add_command ["081234567890", "123456", "x"] emptyStorage RemoteCall.raise
        RemoteCall.raise "t"
      = add_command ["081234567890", "123456"] emptyStorage RemoteCall.raise
        RemoteCall.raise "t" :=
  spec_c7_arg_count [] "081234567890" "123456" ["x"] emptyStorage RemoteCall.raise
    RemoteCall.raise "t" (by decide)

/-- With the remote disabled, `get_accounts` is the local collection. -/
lemma get_accounts_off (st : Storage) (rr : RemoteCall (List RawRow))
    (hflag : st.use_google_sheets = false) :
    st.get_accounts rr = st.accounts.map Rec.loc := by
  unfold Storage.get_accounts
  rw [hflag]
  simp

/-- On local records, the dual-key active filter of the dispatcher coincides with
filtering on the `status` field. -/
lemma active_count_local (l : List Account) :
    ((l.map Rec.loc).filter
      (fun acc => acc.get_status == some "active" || acc.get_Status == some "active")).length
      = countActive l := by
  unfold countActive
  induction l with
  | nil => rfl
  | cons a t ih =>
    simp only [List.map_cons, List.filter_cons]
    cases h : (a.status == "active") with
    | false =>
      have hp : (Rec.get_status (Rec.loc a) == some "active"
          || Rec.get_Status (Rec.loc a) == some "active") = false := by
        show (a.status == "active" || false) = false
        rw [h]
        decide
      rw [hp]
      simpa using ih
    | true =>
      have hp : (Rec.get_status (Rec.loc a) == some "active"
          || Rec.get_Status (Rec.loc a) == some "active") = true := by
        show (a.status == "active" || false) = true
        rw [h]
        decide
      rw [hp]
      simpa using ih

/-- Appending an active record increments the active count. -/
lemma countActive_append_active (l : List Account) (a : Account)
    (h : a.status = "active") :
    countActive (l ++ [a]) = countActive l + 1 := by
  unfold countActive
  rw [List.filter_append]
  simp [List.filter_cons, h]

/-- Case analysis on the state after one `add_command` with the remote
disabled: either storage is untouched (a rejection) or the active count was
below 8 and exactly the new record was appended. -/
lemma add_command_snd_cases (args : List String) (st : Storage)
    (rr : RemoteCall (List RawRow)) (ra : RemoteCall Unit) (now : String)
    (hflag : st.use_google_sheets = false) :
    (add_command args st rr ra now).2 = st ∨
    (countActive st.accounts < 8 ∧
     (add_command args st rr ra now).2
       = { st with accounts :=
             st.accounts ++ [mkAccount (args.getD 0 "") (args.getD 1 "") "User" now] }) := by
  simp only [add_command]
  split
  · exact Or.inl rfl
  split
  · exact Or.inl rfl
  split
  · exact Or.inl rfl
  split
  · exact Or.inl rfl
  · next hcap =>
    right
    rw [get_accounts_off st rr hflag, active_count_local] at hcap
    refine ⟨by omega, ?_⟩
    rw [add_account_eq]

/-- One `add_command` with the remote disabled keeps the remote disabled and
keeps the active count at or below 8. -/
lemma add_command_preserves (args : List String) (st : Storage)
    (rr : RemoteCall (List RawRow)) (ra : RemoteCall Unit) (now : String)
    (hflag : st.use_google_sheets = false)
    (h8 : countActive st.accounts ≤ 8) :
    ((add_command args st rr ra now).2).use_google_sheets = false ∧
    countActive ((add_command args st rr ra now).2).accounts ≤ 8 := by
  rcases add_command_snd_cases args st rr ra now hflag with heq | ⟨hlt, heq⟩
  · rw [heq]
    exact ⟨hflag, h8⟩
  · rw [heq]
    refine ⟨hflag, ?_⟩
    rw [countActive_append_active _ _ rfl]
    omega

/-- The invariant holds along any sequence of add commands. -/
lemma runAdds_inv (cmds : List AddReq) (st : Storage)
    (hflag : st.use_google_sheets = false)
    (h8 : countActive st.accounts ≤ 8) :
    (runAdds cmds st).use_google_sheets = false ∧
    countActive (runAdds cmds st).accounts ≤ 8 := by
  induction cmds generalizing st with
  | nil => exact ⟨hflag, h8⟩
  | cons c cs ih =>
    have h := add_command_preserves c.args st c.remoteRead c.remoteApp c.now hflag h8
    exact ih _ h.1 h.2

/-- With the remote disabled, ≥ 8 actives, and well-formed arguments, the
add command replies with the capacity error. -/
lemma add_command_at_capacity (args : List String) (st : Storage)
    (rr : RemoteCall (List RawRow)) (ra : RemoteCall Unit) (now : String)
    (hflag : st.use_google_sheets = false)
    (hlen : 2 ≤ args.length) (hp : phone_ok (args.getD 0 ""))
    (hq : pin_ok (args.getD 1 "")) (h8 : 8 ≤ countActive st.accounts) :
    (add_command args st rr ra now).1 = Reply.capacityFull := by
  simp only [add_command]
  rw [if_neg (by omega), if_neg (fun hc => (phone_bad_iff _).mp hc hp),
    if_neg (fun hc => (pin_bad_iff _).mp hc hq),
    if_pos (by rw [get_accounts_off st rr hflag, active_count_local]; omega)]

/-- C1: starting from the empty store with the remote disabled, no sequence
of add commands ever brings the number of active records above 8; and in
any state with the remote disabled and 8 active records, a well-formed add
is rejected with the capacity error and leaves storage unchanged. -/
theorem spec_c1_capacity (cmds : List AddReq) (st : Storage) (args : List String)
    (rr : RemoteCall (List RawRow)) (ra : RemoteCall Unit) (now : String)
    (hflag : st.use_google_sheets = false)
    (h8 : countActive st.accounts = 8)
    (hlen : 2 ≤ args.length) (hp : phone_ok (args.getD 0 ""))
    (hq : pin_ok (args.getD 1 "")) :
    countActive (runAdds cmds emptyStorage).accounts ≤ 8 ∧
    (add_command args st rr ra now).1 = Reply.capacityFull ∧
    (add_command args st rr ra now).2 = st := by
  refine ⟨(runAdds_inv cmds emptyStorage rfl (by decide)).2,
    add_command_at_capacity args st rr ra now hflag hlen hp hq (by omega), ?_⟩
  rcases add_command_snd_cases args st rr ra now hflag with heq | ⟨hlt, _⟩
  · exact heq
  · omega

/-- A store holding eight active accounts, remote disabled. -/
def eightActive : Storage :=
  { use_google_sheets := false,
    accounts :=
      [mkAccount "0811111111" "1111" "User" "t",
       mkAccount "0822222222" "1111" "User" "t",
       mkAccount "0833333333" "1111" "User" "t",
       mkAccount "0844444444" "1111" "User" "t",
       mkAccount "0855555555" "1111" "User" "t",
       mkAccount "0866666666" "1111" "User" "t",
       mkAccount "0877777777" "1111" "User" "t",
       mkAccount "0888888888" "1111" "User" "t"] }

/-- C1 witness: nine identical valid adds from the empty store, and a valid
ninth add against a store with eight active accounts. -/
theorem spec_c1_witness :
    countActive (runAdds (List.replicate 9
        (⟨["081234567890", "1234"], RemoteCall.raise, RemoteCall.raise, "t"⟩ : AddReq))
        emptyStorage).accounts ≤ 8 ∧
    (add_command ["0899999999", "5678"] eightActive RemoteCall.raise RemoteCall.raise "t9").1
      = Reply.capacityFull ∧
    (add_command ["0899999999", "5678"] eightActive RemoteCall.raise RemoteCall.raise "t9").2
      = eightActive :=
  spec_c1_capacity _ _ _ _ _ _ rfl (by decide) (by decide) (by decide) (by decide)

/-- Number of active records carrying a given phone. -/
def countPhoneActive (l : List Account) (p : String) : Nat :=
  (l.filter (fun a => a.status == "active" && a.phone == p)).length

/-- Appending an active record with phone `p` increments its count. -/
lemma countPhoneActive_append_match (l : List Account) (a : Account) (p : String)
    (h1 : a.status = "active") (h2 : a.phone = p) :
    countPhoneActive (l ++ [a]) p = countPhoneActive l p + 1 := by
  unfold countPhoneActive
  rw [List.filter_append]
  simp [List.filter_cons, h1, h2]

/-- The state after adding the same valid phone and pin twice from the empty
store through the add command (remote disabled). -/
def dupState : Storage :=
  (add_command ["081234567890", "123456"]
    ((add_command ["081234567890", "123456"] emptyStorage RemoteCall.raise
        RemoteCall.raise "t1").2)
    RemoteCall.raise RemoteCall.raise "t2").2

/-- C8 counterexample: both adds of the same phone are accepted, and the
collection returned by `get_accounts` then holds two active records with
phone "081234567890": the add command performs no duplicate-phone check. -/
theorem spec_c8_counterexample :
    (add_command ["081234567890", "123456"] emptyStorage RemoteCall.raise
        RemoteCall.raise "t1").1 = Reply.added "081234567890" "123456" ∧
    (add_command ["081234567890", "123456"]
        ((add_command ["081234567890", "123456"] emptyStorage RemoteCall.raise
            RemoteCall.raise "t1").2)
        RemoteCall.raise RemoteCall.raise "t2").1 = Reply.added "081234567890" "123456" ∧
    ((dupState.get_accounts RemoteCall.raise).filter
      (fun rec => (rec.get_status == some "active" || rec.get_Status == some "active")
                   && rec.get_phone == some "081234567890")).length = 2 := by
  decide

/-- The successful path of `add_command`, fully characterized. -/
lemma add_command_success (args : List String) (st : Storage)
    (rr : RemoteCall (List RawRow)) (ra : RemoteCall Unit) (now : String)
    (hflag : st.use_google_sheets = false)
    (hlen : 2 ≤ args.length) (hp : phone_ok (args.getD 0 ""))
    (hq : pin_ok (args.getD 1 "")) (hcap : countActive st.accounts < 8) :
    add_command args st rr ra now
      = (Reply.added (args.getD 0 "") (args.getD 1 ""),
         { st with accounts :=
             st.accounts ++ [mkAccount (args.getD 0 "") (args.getD 1 "") "User" now] }) := by
  simp only [add_command]
  rw [if_neg (by omega), if_neg (fun hc => (phone_bad_iff _).mp hc hp),
    if_neg (fun hc => (pin_bad_iff _).mp hc hq),
    if_neg (by rw [get_accounts_off st rr hflag, active_count_local]; omega),
    add_account_eq]

/-- C8 amended: phone uniqueness is not enforced.  With the remote disabled,
a valid add below the cap always succeeds and appends a fresh active record
with the given phone, so the number of active records carrying that phone
grows by one — adding a phone that already belongs to an active record
yields two active records with it. -/
theorem spec_c8_no_uniqueness (st : Storage) (phone pin now : String)
    (hflag : st.use_google_sheets = false)
    (hp : phone_ok phone) (hq : pin_ok pin)
    (hcap : countActive st.accounts < 8) :
    (add_command [phone, pin] st RemoteCall.raise RemoteCall.raise now).1
      = Reply.added phone pin ∧
    countPhoneActive
        ((add_command [phone, pin] st RemoteCall.raise RemoteCall.raise now).2).accounts phone
      = countPhoneActive st.accounts phone + 1 := by
  rw [add_command_success [phone, pin] st RemoteCall.raise RemoteCall.raise now hflag
    (by simp) hp hq hcap]
  exact ⟨rfl, countPhoneActive_append_match _ _ _ rfl rfl⟩

/-- C8 amended witness: a store already holding an active record with phone
"081234567890"; adding it again takes its active count from 1 to 2. -/
theorem spec_c8_witness :
    (add_command ["081234567890", "123456"]
        ({ use_google_sheets := false,
           accounts := [mkAccount "081234567890" "1234" "User" "t0"] } : Storage)
        RemoteCall.raise RemoteCall.raise "t1").1 = Reply.added "081234567890" "123456" ∧
    countPhoneActive
        ((add_command ["081234567890", "123456"]
            ({ use_google_sheets := false,
               accounts := [mkAccount "081234567890" "1234" "User" "t0"] } : Storage)
            RemoteCall.raise RemoteCall.raise "t1").2).accounts "081234567890"
      = countPhoneActive
          ({ use_google_sheets := false,
             accounts := [mkAccount "081234567890" "1234" "User" "t0"] } : Storage).accounts
          "081234567890" + 1 :=
  spec_c8_no_uniqueness _ "081234567890" "123456" "t1" rfl (by decide) (by decide) (by decide)

end DanaBot
